import Mathlib

/-
Shallow embedding of the simulation core of `src/GalacticToast.tsx`.

JavaScript numbers are modelled as rationals (every JS double denotes a
rational number).  The sources of nondeterminism and the transcendental
helpers of the original code — the outcomes of `Math.random()`, the values
of `Math.sin`, the constant `Math.PI`, and the value `Math.hypot(1,1)` —
are supplied through an explicit environment record `Env`; asset sprite
dimensions (external image files) are supplied through `Assets`.
Side-effect signals (sound playback, HUD publication, mode switching) are
external collaborators and carry no game-state content, so they are not
part of the state embedding.
-/

namespace GalacticToast

/-- Viewport width in pixels (source constant `WIDTH`). -/
def WIDTH : ℚ := 800

/-- Viewport height in pixels (source constant `HEIGHT`). -/
def HEIGHT : ℚ := 600

def PLAYER_SPEED : ℚ := 320

def SHOT_SPEED : ℚ := 640

def BASE_ENEMY_SPEED : ℚ := 180

def MAX_ENEMY_SPEED : ℚ := 420

def BASE_SPAWN_MS : ℚ := 1100

def MIN_SPAWN_MS : ℚ := 350

def SHOT_COOLDOWN_MS : ℚ := 250

def INVULNERABLE_MS : ℚ := 1000

def MAX_SHOTS_BASE : ℕ := 2

def MAX_SHOTS_CAP : ℕ := 6

def LIVES_START : ℤ := 3

def COMBO_WINDOW_MS : ℚ := 2400

def POWERUP_DROP_BASE : ℚ := 0.12

def POWERUP_DROP_COMBO_BONUS : ℚ := 0.03

def POWERUP_SPEED : ℚ := 140

def POWERUP_SIZE : ℚ := 30

def BOOST_MULTIPLIER : ℚ := 1.35

def BOOST_DURATION_MS : ℚ := 6000

def BURST_COOLDOWN_MS : ℚ := 140

def BURST_DURATION_MS : ℚ := 6000

def BURST_BONUS_SHOTS : ℕ := 2

def BURST_SPREAD_SPEED : ℚ := 140

def BURST_SPREAD_OFFSET : ℚ := 10

def SLOW_DURATION_MS : ℚ := 5200

def SLOW_MULTIPLIER : ℚ := 0.7

def SHIELD_CAP : ℕ := 2

/-- `clamp(value, min, max)` from the source. -/
def clamp (value lo hi : ℚ) : ℚ := min (max value lo) hi

/-- `spawnInterval(score)`: `Math.max(MIN_SPAWN_MS, BASE_SPAWN_MS - Math.floor(score/10)*80)`. -/
def spawnInterval (score : ℕ) : ℚ :=
  max MIN_SPAWN_MS (BASE_SPAWN_MS - (score / 10 : ℕ) * 80)

/-- `enemySpeed(score)`: `Math.min(MAX_ENEMY_SPEED, BASE_ENEMY_SPEED + Math.floor(score/5)*12)`. -/
def enemySpeed (score : ℕ) : ℚ :=
  min MAX_ENEMY_SPEED (BASE_ENEMY_SPEED + (score / 5 : ℕ) * 12)

/-- `randomBetween(min, max)` with the `Math.random()` outcome `roll` made explicit:
`Math.floor(roll * (max - min + 1)) + min`. -/
def randomBetween (roll lo hi : ℚ) : ℚ :=
  (⌊roll * (hi - lo + 1)⌋ : ℤ) + lo

/-- Axis-aligned box: all spatial entities extend this shape. -/
structure Rect where
  x : ℚ
  y : ℚ
  width : ℚ
  height : ℚ
deriving DecidableEq, Repr

/-- `rectsIntersect(a, b)`: strict overlap on both axes. -/
def rectsIntersect (a b : Rect) : Prop :=
  a.x < b.x + b.width ∧ a.x + a.width > b.x ∧
  a.y < b.y + b.height ∧ a.y + a.height > b.y

instance (a b : Rect) : Decidable (rectsIntersect a b) := by
  unfold rectsIntersect; infer_instance

structure Player extends Rect where
  speed : ℚ
  maxShots : ℕ
  lastShotMs : ℚ
  invulnerableUntil : ℚ
  shield : ℕ
deriving DecidableEq, Repr

structure Shot extends Rect where
  velocityX : ℚ
  velocityY : ℚ
deriving DecidableEq, Repr

inductive EnemyKind where
  | drifter
  | zigzag
  | armored
  | splitter
  | shard
deriving DecidableEq, Repr

structure Enemy extends Rect where
  speed : ℚ
  kind : EnemyKind
  hp : ℤ
  baseY : ℚ
  waveAmplitude : ℚ
  waveFrequency : ℚ
  wavePhase : ℚ
  sizeScale : ℚ
deriving DecidableEq, Repr

inductive PowerUpKind where
  | boost
  | burst
  | shield
  | slow
deriving DecidableEq, Repr

structure PowerUp extends Rect where
  speed : ℚ
  kind : PowerUpKind
deriving DecidableEq, Repr

structure GameState where
  score : ℕ
  lives : ℤ
  lastSpawnMs : ℚ
  nextShotUpgrade : ℕ
  combo : ℕ
  comboExpiresAt : ℚ
  boostUntil : ℚ
  burstUntil : ℚ
  slowUntil : ℚ
  player : Player
  shots : List Shot
  enemies : List Enemy
  powerUps : List PowerUp
deriving DecidableEq, Repr

/-- The five held-control flags read by the step (source type `Controls`). -/
structure Controls where
  up : Bool
  down : Bool
  left : Bool
  right : Bool
  shoot : Bool
deriving DecidableEq, Repr

/-- Sprite pixel dimensions supplied by the external asset collaborator. -/
structure Assets where
  playerW : ℚ
  playerH : ℚ
  shotW : ℚ
  shotH : ℚ
  enemyW : ℚ
  enemyH : ℚ
deriving DecidableEq, Repr

/-- Environment for one step: outcomes of the `Math.random()` calls (each in
`[0,1)` in the real program, left unconstrained here), the values of the
transcendental helpers, indexed per destruction event where several calls can
occur in one step. -/
structure Env where
  sqrt2 : ℚ
  sinAt : ℚ → ℚ
  pi : ℚ
  kindRoll : ℚ
  speedRoll : ℚ
  waveAmpRoll : ℚ
  waveFreqRoll : ℚ
  wavePhaseRoll : ℚ
  spawnYRoll : ℚ
  dropRoll : ℕ → ℚ
  puKindRoll : ℕ → ℚ
  puSpeedRoll : ℕ → ℚ

/-- `pickEnemyKind(score)` with the `Math.random()` outcome `roll` explicit. -/
def pickEnemyKind (roll : ℚ) (score : ℕ) : EnemyKind :=
  if score < 8 then
    if roll < 0.75 then .drifter else .zigzag
  else if score < 18 then
    if roll < 0.5 then .drifter
    else if roll < 0.75 then .zigzag
    else .armored
  else if roll < 0.45 then .drifter
  else if roll < 0.7 then .zigzag
  else if roll < 0.88 then .armored
  else .splitter

/-- `createEnemy(score)`: spawner factory, randomness drawn from `env`. -/
def createEnemy (env : Env) (assets : Assets) (score : ℕ) : Enemy :=
  let base := enemySpeed score
  let kind := pickEnemyKind env.kindRoll score
  let speed0 := randomBetween env.speedRoll (max 120 (base - 30)) (base + 30)
  let sizeScale : ℚ :=
    match kind with
    | .zigzag => 0.9
    | .armored => 1.15
    | .splitter => 1.05
    | _ => 1
  let hp : ℤ := match kind with | .armored => 2 | _ => 1
  let speed := match kind with | .armored => speed0 * 0.85 | _ => speed0
  let waveAmplitude : ℚ :=
    match kind with | .zigzag => randomBetween env.waveAmpRoll 18 34 | _ => 0
  let waveFrequency : ℚ :=
    match kind with | .zigzag => randomBetween env.waveFreqRoll 6 10 / 1000 | _ => 0
  let wavePhase : ℚ :=
    match kind with | .zigzag => env.wavePhaseRoll * env.pi * 2 | _ => 0
  let enemyWidth := assets.enemyW * sizeScale
  let enemyHeight := assets.enemyH * sizeScale
  let spawnY := randomBetween env.spawnYRoll
    ((⌊enemyHeight / 2⌋ : ℤ) : ℚ) ((⌊HEIGHT - enemyHeight / 2⌋ : ℤ) : ℚ)
  let baseY := spawnY - enemyHeight / 2
  { x := WIDTH + 10
    y := baseY
    width := enemyWidth
    height := enemyHeight
    speed := speed
    kind := kind
    hp := hp
    baseY := baseY
    waveAmplitude := waveAmplitude
    waveFrequency := waveFrequency
    wavePhase := wavePhase
    sizeScale := sizeScale }

/-- `createShard(source, offsetY)`: one shard child of a destroyed splitter. -/
def createShard (assets : Assets) (source : Enemy) (offsetY : ℚ) : Enemy :=
  let sizeScale : ℚ := 0.65
  let enemyWidth := assets.enemyW * sizeScale
  let enemyHeight := assets.enemyH * sizeScale
  let baseY := clamp
    (source.y + source.height / 2 - enemyHeight / 2 + offsetY)
    0 (HEIGHT - enemyHeight)
  { x := source.x + source.width * 0.3
    y := baseY
    width := enemyWidth
    height := enemyHeight
    speed := source.speed * 1.2
    kind := .shard
    hp := 1
    baseY := baseY
    waveAmplitude := 0
    waveFrequency := 0
    wavePhase := 0
    sizeScale := sizeScale }

/-- `pickPowerUpKind()` with the `Math.random()` outcome `roll` explicit. -/
def pickPowerUpKind (roll : ℚ) : PowerUpKind :=
  if roll < 0.3 then .boost
  else if roll < 0.55 then .burst
  else if roll < 0.78 then .slow
  else .shield

/-- `createPowerUp(kind, x, y)` with the speed roll explicit. -/
def createPowerUp (speedRoll : ℚ) (kind : PowerUpKind) (x y : ℚ) : PowerUp :=
  let size := POWERUP_SIZE
  { x := clamp (x - size / 2) 0 (WIDTH - size)
    y := clamp (y - size / 2) 0 (HEIGHT - size)
    width := size
    height := size
    speed := randomBetween speedRoll (POWERUP_SPEED - 20) (POWERUP_SPEED + 30)
    kind := kind }

/-- Phase 1 (movement): direction from the held flags, normalised by
`Math.hypot(directionX, directionY) || 1` — over `directionX, directionY ∈
\x7b-1, 0, 1\x7d` that length is `env.sqrt2` when both axes are active and `1`
otherwise — scaled by (possibly boosted) speed and `dt`, then clamped. -/
def movePhase (env : Env) (controls : Controls) (boostActive : Bool)
    (player : Player) (dt : ℚ) : Player :=
  let directionX : ℚ := (if controls.right then 1 else 0) - (if controls.left then 1 else 0)
  let directionY : ℚ := (if controls.down then 1 else 0) - (if controls.up then 1 else 0)
  if directionX ≠ 0 ∨ directionY ≠ 0 then
    let length : ℚ := if directionX ≠ 0 ∧ directionY ≠ 0 then env.sqrt2 else 1
    let playerSpeed := player.speed * (if boostActive then BOOST_MULTIPLIER else 1)
    let x := player.x + directionX / length * playerSpeed * dt
    let y := player.y + directionY / length * playerSpeed * dt
    { player with
        x := clamp x 0 (WIDTH - player.width)
        y := clamp y 0 (HEIGHT - player.height) }
  else
    player

/-- The shot-emitting loop of phase 2: push one shot per pattern, breaking as
soon as the active count reaches `maxShots`. -/
def pushShots (maxShots : ℕ) (mk : ℚ × ℚ → Shot) :
    List (ℚ × ℚ) → List Shot → List Shot
  | [], shots => shots
  | pattern :: rest, shots =>
    if shots.length ≥ maxShots then shots
    else pushShots maxShots mk rest (shots ++ [mk pattern])

/-- Phase 2 (firing): cooldown gate, effective cap `maxShots + bonus`, then
the pattern loop (three spread shots while burst is active, one otherwise). -/
def firePhase (assets : Assets) (controls : Controls) (burstActive : Bool)
    (state : GameState) (nowMs : ℚ) : GameState :=
  if controls.shoot then
    let shotCooldown := if burstActive then BURST_COOLDOWN_MS else SHOT_COOLDOWN_MS
    if nowMs - state.player.lastShotMs ≥ shotCooldown then
      let bonusShots := if burstActive then BURST_BONUS_SHOTS else 0
      let maxShots := state.player.maxShots + bonusShots
      if state.shots.length < maxShots then
        let player := { state.player with lastShotMs := nowMs }
        let baseY := player.y + player.height / 2 - assets.shotH / 2
        let patterns : List (ℚ × ℚ) :=
          if burstActive then
            [(0, 0), (-BURST_SPREAD_OFFSET, -BURST_SPREAD_SPEED),
             (BURST_SPREAD_OFFSET, BURST_SPREAD_SPEED)]
          else [(0, 0)]
        let mk : ℚ × ℚ → Shot := fun pattern =>
          { x := player.x + player.width
            y := baseY + pattern.1
            width := assets.shotW
            height := assets.shotH
            velocityX := SHOT_SPEED
            velocityY := pattern.2 }
        { state with player := player, shots := pushShots maxShots mk patterns state.shots }
      else state
    else state
  else state

/-- The per-shot displacement of phase 3. -/
def moveShot (dt : ℚ) (shot : Shot) : Shot :=
  { shot with x := shot.x + shot.velocityX * dt, y := shot.y + shot.velocityY * dt }

/-- Phase 3 (shot advance and prune): move every shot, then keep exactly the
shots with `x < WIDTH + width && y > -height && y < HEIGHT + height`. -/
def shotAdvancePhase (state : GameState) (dt : ℚ) : GameState :=
  { state with
      shots := (state.shots.map (moveShot dt)).filter fun shot =>
        decide (shot.x < WIDTH + shot.width) &&
        decide (shot.y > -shot.height) &&
        decide (shot.y < HEIGHT + shot.height) }

/-- Phase 4 (spawning): append one new enemy when the interval has elapsed. -/
def spawnPhase (env : Env) (assets : Assets) (state : GameState) (nowMs : ℚ) :
    GameState :=
  if nowMs - state.lastSpawnMs ≥ spawnInterval state.score then
    { state with
        enemies := state.enemies ++ [createEnemy env assets state.score]
        lastSpawnMs := nowMs }
  else state

/-- The per-enemy displacement of phase 5 (leftward drift plus oscillation). -/
def moveEnemy (env : Env) (slowActive : Bool) (dt nowMs : ℚ) (enemy : Enemy) :
    Enemy :=
  let enemySpeedScale : ℚ := if slowActive then SLOW_MULTIPLIER else 1
  let moved := { enemy with x := enemy.x - enemy.speed * enemySpeedScale * dt }
  if moved.waveAmplitude > 0 then
    let y := moved.baseY +
      env.sinAt (nowMs * moved.waveFrequency + moved.wavePhase) * moved.waveAmplitude
    { moved with y := clamp y 0 (HEIGHT - moved.height) }
  else moved

/-- Phase 5 (obstacle advance). -/
def enemyAdvancePhase (env : Env) (slowActive : Bool) (state : GameState)
    (dt nowMs : ℚ) : GameState :=
  { state with enemies := state.enemies.map (moveEnemy env slowActive dt nowMs) }

/-- The partition loop of phase 6: kept enemies in order plus the escape count. -/
def escapeScan : List Enemy → List Enemy × ℕ
  | [] => ([], 0)
  | enemy :: rest =>
    let (kept, n) := escapeScan rest
    if enemy.x + enemy.width < 0 then (kept, n + 1) else (enemy :: kept, n)

/-- Phase 6 (escape accounting): remove enemies past the left edge; each costs
one life and a positive count resets the combo state. -/
def escapePhase (state : GameState) : GameState :=
  let (remainingEnemies, escaped) := escapeScan state.enemies
  let state :=
    if escaped > 0 then
      { state with lives := state.lives - escaped, combo := 0, comboExpiresAt := 0 }
    else state
  { state with enemies := remainingEnemies }

/-- Phase 7 (power-up advance and prune). -/
def powerUpAdvancePhase (state : GameState) (dt : ℚ) : GameState :=
  { state with
      powerUps := (state.powerUps.map fun powerUp =>
          { powerUp with x := powerUp.x - powerUp.speed * dt }).filter
        fun powerUp => decide (powerUp.x + powerUp.width > 0) }

/-- The inner loop of phase 8: scan the enemies in collection order for the
first one with `hp > 0` that the shot intersects; on a hit return the updated
enemy list together with the decremented enemy record. -/
def hitScan (shot : Shot) : List Enemy → Option (List Enemy × Enemy)
  | [] => none
  | enemy :: rest =>
    if enemy.hp ≤ 0 then
      match hitScan shot rest with
      | none => none
      | some (rest2, hit) => some (enemy :: rest2, hit)
    else if rectsIntersect shot.toRect enemy.toRect then
      let enemy2 := { enemy with hp := enemy.hp - 1 }
      some (enemy2 :: rest, enemy2)
    else
      match hitScan shot rest with
      | none => none
      | some (rest2, hit) => some (enemy :: rest2, hit)

/-- The outer loop of phase 8: process the shots in order against the evolving
enemy list; returns `(survivors, enemies, destroyedEnemies, hitCount)`. -/
def shotEnemyScan : List Shot → List Enemy → List Shot × List Enemy × List Enemy × ℕ
  | [], enemies => ([], enemies, [], 0)
  | shot :: rest, enemies =>
    match hitScan shot enemies with
    | none =>
      let (survivors, enemies2, destroyed, hits) := shotEnemyScan rest enemies
      (shot :: survivors, enemies2, destroyed, hits)
    | some (enemies1, hitEnemy) =>
      let (survivors, enemies2, destroyed, hits) := shotEnemyScan rest enemies1
      (survivors, enemies2,
        (if hitEnemy.hp ≤ 0 then hitEnemy :: destroyed else destroyed), hits + 1)

/-- Phase 8 (shot–obstacle collision): run the scan, keep the surviving shots,
and drop enemies whose hit-points reached zero; the destroyed records are
returned for phase 9. -/
def collisionPhase (state : GameState) : GameState × List Enemy :=
  let (survivors, enemies, destroyedEnemies, _hits) :=
    shotEnemyScan state.shots state.enemies
  ({ state with
      shots := survivors
      enemies := enemies.filter fun enemy => decide (enemy.hp > 0) },
   destroyedEnemies)

/-- One iteration of phase 9's destruction loop: score, combo, power-up drop
roll (randomness indexed by the iteration counter `idx`), splitter shards. -/
def destructionStep (env : Env) (assets : Assets) (nowMs : ℚ) (idx : ℕ)
    (state : GameState) (enemy : Enemy) : GameState :=
  let state := { state with score := state.score + 1 }
  let state :=
    if nowMs ≤ state.comboExpiresAt then
      { state with combo := state.combo + 1, comboExpiresAt := nowMs + COMBO_WINDOW_MS }
    else
      { state with combo := 1, comboExpiresAt := nowMs + COMBO_WINDOW_MS }
  let comboTier : ℕ := min 3 (state.combo / 4)
  let dropChance := POWERUP_DROP_BASE + comboTier * POWERUP_DROP_COMBO_BONUS
  let state :=
    if state.powerUps.length < 3 ∧ env.dropRoll idx < dropChance then
      let kind := pickPowerUpKind (env.puKindRoll idx)
      { state with
          powerUps := state.powerUps ++
            [createPowerUp (env.puSpeedRoll idx) kind
              (enemy.x + enemy.width / 2) (enemy.y + enemy.height / 2)] }
    else state
  if enemy.kind = EnemyKind.splitter then
    { state with
        enemies := state.enemies ++
          [createShard assets enemy (-14), createShard assets enemy 14] }
  else state

/-- Phase 9 (destruction resolution) over the destroyed list, in order. -/
def destructionGo (env : Env) (assets : Assets) (nowMs : ℚ) :
    ℕ → GameState → List Enemy → GameState
  | _, state, [] => state
  | idx, state, enemy :: rest =>
    destructionGo env assets nowMs (idx + 1) (destructionStep env assets nowMs idx state enemy) rest

def destructionPhase (env : Env) (assets : Assets) (nowMs : ℚ)
    (destroyedEnemies : List Enemy) (state : GameState) : GameState :=
  destructionGo env assets nowMs 0 state destroyedEnemies

/-- Phase 10 (ammo upgrade) as a fuelled loop: the guard `maxShots <
MAX_SHOTS_CAP` makes at most `MAX_SHOTS_CAP` iterations possible, so the fuel
is not a behavioural restriction. -/
def upgradeGo : ℕ → GameState → GameState
  | 0, state => state
  | fuel + 1, state =>
    if state.score ≥ state.nextShotUpgrade ∧ state.player.maxShots < MAX_SHOTS_CAP then
      upgradeGo fuel
        { state with
            player := { state.player with maxShots := state.player.maxShots + 1 }
            nextShotUpgrade := state.nextShotUpgrade + 15 }
    else state

def upgradePhase (state : GameState) : GameState :=
  upgradeGo MAX_SHOTS_CAP state

/-- The scan of phase 11: drop the first enemy intersecting the player, keep
every other enemy (also later intersecting ones), report whether one was hit. -/
def playerScan (player : Player) : List Enemy → List Enemy × Bool
  | [] => ([], false)
  | enemy :: rest =>
    if rectsIntersect player.toRect enemy.toRect then (rest, true)
    else
      let (survivors, collided) := playerScan player rest
      (enemy :: survivors, collided)

/-- Phase 11 (player–obstacle collision), gated on the invulnerability
window: shield absorbs the hit when positive, else one life is lost; the
invulnerability window restarts and the combo resets. -/
def playerHitPhase (state : GameState) (nowMs : ℚ) : GameState :=
  if nowMs ≥ state.player.invulnerableUntil then
    let (survivorsAfterPlayer, collided) := playerScan state.player state.enemies
    if collided then
      let player :=
        if state.player.shield > 0 then
          { state.player with
              shield := state.player.shield - 1
              invulnerableUntil := nowMs + INVULNERABLE_MS }
        else
          { state.player with invulnerableUntil := nowMs + INVULNERABLE_MS }
      let lives := if state.player.shield > 0 then state.lives else state.lives - 1
      { state with
          player := player
          lives := lives
          combo := 0
          comboExpiresAt := 0
          enemies := survivorsAfterPlayer }
    else state
  else state

/-- The effect of one picked-up power-up (phase 12). -/
def applyPowerUp (state : GameState) (nowMs : ℚ) (powerUp : PowerUp) : GameState :=
  match powerUp.kind with
  | .boost => { state with boostUntil := max state.boostUntil nowMs + BOOST_DURATION_MS }
  | .burst => { state with burstUntil := max state.burstUntil nowMs + BURST_DURATION_MS }
  | .slow => { state with slowUntil := max state.slowUntil nowMs + SLOW_DURATION_MS }
  | .shield =>
    { state with
        player := { state.player with shield := min SHIELD_CAP (state.player.shield + 1) } }

/-- The loop of phase 12 over the power-up list: intersecting power-ups apply
their effect and are consumed, the rest are kept in order. -/
def pickupScan (nowMs : ℚ) (state : GameState) :
    List PowerUp → GameState × List PowerUp
  | [] => (state, [])
  | powerUp :: rest =>
    if rectsIntersect state.player.toRect powerUp.toRect then
      pickupScan nowMs (applyPowerUp state nowMs powerUp) rest
    else
      let (state2, remaining) := pickupScan nowMs state rest
      (state2, powerUp :: remaining)

/-- Phase 12 (player–power-up collision). -/
def pickupPhase (state : GameState) (nowMs : ℚ) : GameState :=
  let (state2, remainingPowerUps) := pickupScan nowMs state state.powerUps
  { state2 with powerUps := remainingPowerUps }

/-- Phase 13 (combo expiry). -/
def comboExpiryPhase (state : GameState) (nowMs : ℚ) : GameState :=
  if state.combo > 0 ∧ nowMs > state.comboExpiresAt then
    { state with combo := 0 }
  else state

/-- The state immediately after phase 2 of a step (movement then firing); the
three buff-activity flags are read from the incoming state exactly as at the
top of `updateGame`, which no earlier phase invalidates. -/
def afterFiring (env : Env) (assets : Assets) (controls : Controls)
    (state : GameState) (dt nowMs : ℚ) : GameState :=
  let boostActive := decide (nowMs < state.boostUntil)
  let burstActive := decide (nowMs < state.burstUntil)
  firePhase assets controls burstActive
    { state with player := movePhase env controls boostActive state.player dt } nowMs

/-- Phases 1 through 8 of a step; the second component is the
`destroyedEnemies` list handed to phase 9. -/
def stepPhases1to8 (env : Env) (assets : Assets) (controls : Controls)
    (state : GameState) (dt nowMs : ℚ) : GameState × List Enemy :=
  let slowActive := decide (nowMs < state.slowUntil)
  let state := afterFiring env assets controls state dt nowMs
  let state := shotAdvancePhase state dt
  let state := spawnPhase env assets state nowMs
  let state := enemyAdvancePhase env slowActive state dt nowMs
  let state := escapePhase state
  let state := powerUpAdvancePhase state dt
  collisionPhase state

/-- `updateGame(state, dt, nowMs)`: the full step, phases 1–13.  Phases 14–15
(terminal check and stats projection) only raise external signals and mutate
no `GameState` field, so the state transition ends with phase 13. -/
def updateGame (env : Env) (assets : Assets) (controls : Controls)
    (state : GameState) (dt nowMs : ℚ) : GameState :=
  let (state8, destroyedEnemies) := stepPhases1to8 env assets controls state dt nowMs
  let state9 := destructionPhase env assets nowMs destroyedEnemies state8
  let state10 := upgradePhase state9
  let state11 := playerHitPhase state10 nowMs
  let state12 := pickupPhase state11 nowMs
  comboExpiryPhase state12 nowMs

/-- HUD projection record (source type `Stats`). -/
structure Stats where
  score : ℕ
  lives : ℤ
  ammo : ℕ
  combo : ℕ
  shield : ℕ
deriving DecidableEq, Repr

/-- The refs that `resetGame` writes: the game state (absent before the first
successful reset), the control snapshot, the published stats, and the recorded
last score. -/
structure Session where
  game : Option GameState
  controls : Controls
  stats : Stats
  lastScore : ℕ
deriving DecidableEq, Repr

/-- The fresh state `resetGame` constructs when assets are available. -/
def freshState (assets : Assets) (nowMs : ℚ) : GameState :=
  let playerWidth := assets.playerW
  let playerHeight := assets.playerH
  let player : Player :=
    { x := 80 - playerWidth / 2
      y := HEIGHT / 2 - playerHeight / 2
      width := playerWidth
      height := playerHeight
      speed := PLAYER_SPEED
      maxShots := MAX_SHOTS_BASE
      lastShotMs := 0
      invulnerableUntil := 0
      shield := 0 }
  { score := 0
    lives := LIVES_START
    lastSpawnMs := nowMs
    nextShotUpgrade := 15
    combo := 0
    comboExpiresAt := 0
    boostUntil := 0
    burstUntil := 0
    slowUntil := 0
    player := player
    shots := []
    enemies := []
    powerUps := [] }

/-- `resetGame(nowMs)`: a no-op when the asset collaborator has not supplied
dimensions yet; otherwise replaces the session with a brand-new one. -/
def resetGame (assets : Option Assets) (nowMs : ℚ) (session : Session) : Session :=
  match assets with
  | none => session
  | some assets =>
    { game := some (freshState assets nowMs)
      controls := { up := false, down := false, left := false, right := false, shoot := false }
      stats := { score := 0, lives := LIVES_START, ammo := MAX_SHOTS_BASE, combo := 0, shield := 0 }
      lastScore := 0 }

/-- Effective shot cap read by phase 2 and the HUD: base capacity plus the
burst bonus while the burst buff is active. -/
def effectiveMaxShots (state : GameState) (nowMs : ℚ) : ℕ :=
  state.player.maxShots + (if nowMs < state.burstUntil then BURST_BONUS_SHOTS else 0)

/-
Concrete fixtures used to instantiate the theorems below on closed inputs.
`env0.sqrt2` and `env0.pi` are arbitrary rational stand-ins for the source's
irrational helper values; no instantiated statement depends on them.
-/

def env0 : Env :=
  { sqrt2 := 99 / 70
    sinAt := fun _ => 0
    pi := 355 / 113
    kindRoll := 0
    speedRoll := 0
    waveAmpRoll := 0
    waveFreqRoll := 0
    wavePhaseRoll := 0
    spawnYRoll := 0
    dropRoll := fun _ => 1
    puKindRoll := fun _ => 0
    puSpeedRoll := fun _ => 0 }

def assets0 : Assets :=
  { playerW := 40, playerH := 40, shotW := 20, shotH := 10
    enemyW := 800 / 13, enemyH := 800 / 13 }

def player0 : Player :=
  { x := 0, y := 0, width := 40, height := 40, speed := PLAYER_SPEED
    maxShots := 2, lastShotMs := 0, invulnerableUntil := 0, shield := 0 }

def shotA : Shot :=
  { x := 100, y := 100, width := 20, height := 10, velocityX := 640, velocityY := 0 }

def ctlShoot : Controls :=
  { up := false, down := false, left := false, right := false, shoot := true }

def ctlIdle : Controls :=
  { up := false, down := false, left := false, right := false, shoot := false }

def baseState : GameState :=
  { score := 0, lives := 3, lastSpawnMs := 0, nextShotUpgrade := 15, combo := 0
    comboExpiresAt := 0, boostUntil := 0, burstUntil := 0, slowUntil := 0
    player := player0, shots := [], enemies := [], powerUps := [] }

/-- A shot already past the left viewport edge (its right edge is at -80). -/
def shotL : Shot :=
  { x := -100, y := 0, width := 20, height := 10, velocityX := 0, velocityY := 0 }

/-- A live 1-hp enemy overlapping `shotA`. -/
def enemyA : Enemy :=
  { x := 90, y := 95, width := 40, height := 40, speed := 200, kind := .drifter
    hp := 1, baseY := 95, waveAmplitude := 0, waveFrequency := 0, wavePhase := 0
    sizeScale := 1 }

/-- A second live enemy also overlapping `shotA`, later in collection order. -/
def enemyB : Enemy :=
  { x := 95, y := 90, width := 40, height := 40, speed := 200, kind := .drifter
    hp := 2, baseY := 90, waveAmplitude := 0, waveFrequency := 0, wavePhase := 0
    sizeScale := 1 }

/-- An enemy overlapping `player0`. -/
def enemyP : Enemy :=
  { x := 10, y := 10, width := 40, height := 40, speed := 200, kind := .drifter
    hp := 1, baseY := 10, waveAmplitude := 0, waveFrequency := 0, wavePhase := 0
    sizeScale := 1 }

/-- A power-up overlapping `player0`. -/
def powerUp0 (kind : PowerUpKind) : PowerUp :=
  { x := 0, y := 0, width := 30, height := 30, speed := 140, kind := kind }

/-- The destroyed splitter of the specification's scenario: a 40×40 splitter
at (400, 300) with an arbitrary speed `v`, its hit-points already at zero. -/
def splitterAt (v : ℚ) : Enemy :=
  { x := 400, y := 300, width := 40, height := 40, speed := v
    kind := .splitter, hp := 0, baseY := 300, waveAmplitude := 0
    waveFrequency := 0, wavePhase := 0, sizeScale := 1.05 }

/-
Theorems.  Each claim `Cn` of the specification is settled by the theorem
named `Cn_...`; helper lemmas carry plain descriptive names.
-/

lemma clamp_le (v lo hi : ℚ) : clamp v lo hi ≤ hi :=
  min_le_right _ _

lemma le_clamp (v lo hi : ℚ) (h : lo ≤ hi) : lo ≤ clamp v lo hi :=
  le_min (le_max_right _ _) h

lemma movePhase_width (env : Env) (controls : Controls) (boostActive : Bool)
    (player : Player) (dt : ℚ) :
    (movePhase env controls boostActive player dt).width = player.width := by
  unfold movePhase
  dsimp only
  rw [apply_ite (fun p : Player => p.width)]
  simp

lemma movePhase_height (env : Env) (controls : Controls) (boostActive : Bool)
    (player : Player) (dt : ℚ) :
    (movePhase env controls boostActive player dt).height = player.height := by
  unfold movePhase
  dsimp only
  rw [apply_ite (fun p : Player => p.height)]
  simp

/-- C6: after the movement phase, the player's box stays inside the
800×600 viewport for every elapsed time, every combination of the four
directional flags, and boost active or not, provided it was inside before
the step. -/
theorem C6_movement_bounds (env : Env) (controls : Controls) (boostActive : Bool)
    (player : Player) (dt : ℚ)
    (hx0 : 0 ≤ player.x) (hx1 : player.x ≤ WIDTH - player.width)
    (hy0 : 0 ≤ player.y) (hy1 : player.y ≤ HEIGHT - player.height) :
    0 ≤ (movePhase env controls boostActive player dt).x ∧
    (movePhase env controls boostActive player dt).x ≤
      WIDTH - (movePhase env controls boostActive player dt).width ∧
    0 ≤ (movePhase env controls boostActive player dt).y ∧
    (movePhase env controls boostActive player dt).y ≤
      HEIGHT - (movePhase env controls boostActive player dt).height := by
  rw [movePhase_width, movePhase_height]
  unfold movePhase
  dsimp only
  by_cases h :
      ((if controls.right then (1 : ℚ) else 0) - (if controls.left then 1 else 0)) ≠ 0 ∨
      ((if controls.down then (1 : ℚ) else 0) - (if controls.up then 1 else 0)) ≠ 0
  · rw [if_pos h]
    exact ⟨le_clamp _ _ _ (le_trans hx0 hx1), clamp_le _ _ _,
      le_clamp _ _ _ (le_trans hy0 hy1), clamp_le _ _ _⟩
  · rw [if_neg h]
    exact ⟨hx0, hx1, hy0, hy1⟩

/-- C6 witness: the bound theorem instantiated on a concrete in-bounds player. -/
theorem C6_movement_bounds_witness :
    0 ≤ (movePhase env0 ctlShoot true player0 1).x ∧
    (movePhase env0 ctlShoot true player0 1).x ≤
      WIDTH - (movePhase env0 ctlShoot true player0 1).width ∧
    0 ≤ (movePhase env0 ctlShoot true player0 1).y ∧
    (movePhase env0 ctlShoot true player0 1).y ≤
      HEIGHT - (movePhase env0 ctlShoot true player0 1).height :=
  C6_movement_bounds env0 ctlShoot true player0 1
    (by norm_num [player0]) (by norm_num [player0, WIDTH])
    (by norm_num [player0]) (by norm_num [player0, HEIGHT])

lemma escapeScan_eq (l : List Enemy) :
    escapeScan l =
      (l.filter (fun e => !decide (e.x + e.width < 0)),
       (l.filter fun e => decide (e.x + e.width < 0)).length) := by
  induction l with
  | nil => rfl
  | cons e rest ih =>
    simp only [escapeScan, ih, List.filter]
    by_cases h : e.x + e.width < 0
    · simp [h]
    · simp [h]

/-- C4: the escape phase keeps exactly the enemies whose right edge is still
at or past the left viewport edge, charges one life per escaped enemy, resets
the combo counter and combo expiry to zero exactly when at least one enemy
escaped, and touches nothing else. -/
theorem C4_escape_accounting (state : GameState) :
    (escapePhase state).enemies =
      state.enemies.filter (fun e => !decide (e.x + e.width < 0)) ∧
    (escapePhase state).lives =
      state.lives - (state.enemies.filter fun e => decide (e.x + e.width < 0)).length ∧
    (escapePhase state).combo =
      (if 0 < (state.enemies.filter fun e => decide (e.x + e.width < 0)).length
       then 0 else state.combo) ∧
    (escapePhase state).comboExpiresAt =
      (if 0 < (state.enemies.filter fun e => decide (e.x + e.width < 0)).length
       then 0 else state.comboExpiresAt) ∧
    (escapePhase state).score = state.score ∧
    (escapePhase state).player = state.player ∧
    (escapePhase state).shots = state.shots ∧
    (escapePhase state).powerUps = state.powerUps := by
  simp only [escapePhase, escapeScan_eq]
  by_cases h : 0 < (state.enemies.filter fun e => decide (e.x + e.width < 0)).length
  · simp [h]
  · have h0 : (state.enemies.filter fun e => decide (e.x + e.width < 0)).length = 0 :=
      Nat.eq_zero_of_not_pos h
    simp [h, h0]

/-- C9: reset is a silent no-op while asset dimensions are unavailable; with
assets available it builds a brand-new session — score 0, lives 3, empty
entity collections, all three buff expiries zero, combo zero, upgrade
threshold 15, shield 0, player at the fixed horizontal offset and vertically
centred — independent of whatever session preceded it. -/
theorem C9_reset_lifecycle (a : Assets) (nowMs : ℚ) (s s2 : Session) :
    resetGame none nowMs s = s ∧
    resetGame (some a) nowMs s = resetGame (some a) nowMs s2 ∧
    (resetGame (some a) nowMs s).game = some (freshState a nowMs) ∧
    (freshState a nowMs).score = 0 ∧
    (freshState a nowMs).lives = 3 ∧
    (freshState a nowMs).shots = [] ∧
    (freshState a nowMs).enemies = [] ∧
    (freshState a nowMs).powerUps = [] ∧
    (freshState a nowMs).boostUntil = 0 ∧
    (freshState a nowMs).burstUntil = 0 ∧
    (freshState a nowMs).slowUntil = 0 ∧
    (freshState a nowMs).combo = 0 ∧
    (freshState a nowMs).comboExpiresAt = 0 ∧
    (freshState a nowMs).nextShotUpgrade = 15 ∧
    (freshState a nowMs).player.shield = 0 ∧
    (freshState a nowMs).player.maxShots = MAX_SHOTS_BASE ∧
    (freshState a nowMs).player.x = 80 - a.playerW / 2 ∧
    (freshState a nowMs).player.y = HEIGHT / 2 - a.playerH / 2 ∧
    (freshState a nowMs).lastSpawnMs = nowMs := by
  refine ⟨rfl, rfl, rfl, ?_⟩
  simp [freshState, LIVES_START]

lemma movePhase_maxShots (env : Env) (controls : Controls) (boostActive : Bool)
    (player : Player) (dt : ℚ) :
    (movePhase env controls boostActive player dt).maxShots = player.maxShots := by
  unfold movePhase
  dsimp only
  rw [apply_ite (fun p : Player => p.maxShots)]
  simp

lemma pushShots_length_le (maxShots : ℕ) (mk : ℚ × ℚ → Shot) :
    ∀ (patterns : List (ℚ × ℚ)) (shots : List Shot),
      shots.length ≤ maxShots →
      (pushShots maxShots mk patterns shots).length ≤ maxShots := by
  intro patterns
  induction patterns with
  | nil => intro shots h; exact h
  | cons p rest ih =>
    intro shots h
    unfold pushShots
    by_cases hge : shots.length ≥ maxShots
    · rw [if_pos hge]; exact h
    · rw [if_neg hge]
      exact ih _ (by simp only [List.length_append, List.length_cons, List.length_nil]; omega)

lemma firePhase_length (assets : Assets) (controls : Controls) (b : Bool)
    (state : GameState) (nowMs : ℚ) (M : ℕ)
    (hM : state.player.maxShots + (if b then BURST_BONUS_SHOTS else 0) = M)
    (h : state.shots.length ≤ M) :
    (firePhase assets controls b state nowMs).shots.length ≤ M := by
  unfold firePhase
  dsimp only
  by_cases h1 : controls.shoot = true
  · rw [if_pos h1]
    by_cases h2 : nowMs - state.player.lastShotMs ≥
        (if b = true then BURST_COOLDOWN_MS else SHOT_COOLDOWN_MS)
    · rw [if_pos h2]
      by_cases h3 : state.shots.length <
          state.player.maxShots + (if b = true then BURST_BONUS_SHOTS else 0)
      · rw [if_pos h3]
        subst hM
        exact pushShots_length_le _ _ _ _ (le_of_lt h3)
      · rw [if_neg h3]; exact h
    · rw [if_neg h2]; exact h
  · rw [if_neg h1]; exact h

/-- C1 as stated is false: a state in which the burst buff has just expired
can enter phase 2 with more active shots than the post-burst effective cap,
and the firing phase does not trim them.  Concretely: three shots in flight,
base max-shots 2, burst inactive, fire held with the cooldown elapsed. -/
theorem C1_cap_counterexample :
    ¬ ((afterFiring env0 assets0 ctlShoot
          { baseState with shots := [shotA, shotA, shotA] } 0 1000).shots.length ≤
        effectiveMaxShots { baseState with shots := [shotA, shotA, shotA] } 1000) := by
  norm_num [afterFiring, firePhase, movePhase, pushShots, effectiveMaxShots, env0, assets0,
    ctlShoot, baseState, player0, BURST_COOLDOWN_MS, SHOT_COOLDOWN_MS, BURST_BONUS_SHOTS,
    BOOST_MULTIPLIER]

/-- C1 amended: whenever the active shot count entering the step is at most
the effective max-shots (base max-shots, plus 2 exactly while `now <
burstUntil`), the count immediately after phase 2 still is — the firing phase
never pushes the count above the effective cap, for any input snapshot,
elapsed time and timestamp. -/
theorem C1_cap_after_firing (env : Env) (assets : Assets) (controls : Controls)
    (state : GameState) (dt nowMs : ℚ)
    (h : state.shots.length ≤ effectiveMaxShots state nowMs) :
    (afterFiring env assets controls state dt nowMs).shots.length ≤
      effectiveMaxShots state nowMs := by
  unfold afterFiring
  apply firePhase_length
  · show (movePhase env controls (decide (nowMs < state.boostUntil)) state.player dt).maxShots
        + _ = _
    rw [movePhase_maxShots]
    unfold effectiveMaxShots
    by_cases hb : nowMs < state.burstUntil <;> simp [hb]
  · exact h

/-- C1 witness: the amended cap theorem instantiated on a concrete state. -/
theorem C1_cap_after_firing_witness :
    (afterFiring env0 assets0 ctlShoot baseState 0 1000).shots.length ≤
      effectiveMaxShots baseState 1000 :=
  C1_cap_after_firing env0 assets0 ctlShoot baseState 0 1000
    (by norm_num [baseState, effectiveMaxShots, player0, BURST_BONUS_SHOTS])

/-- C7 as stated is false for the left side: phase 3's prune keeps every shot
with `x < WIDTH + width`, `y > -height` and `y < HEIGHT + height`, and has no
left-edge test at all — a shot standing entirely left of the viewport
survives the phase. -/
theorem C7_prune_counterexample :
    (shotAdvancePhase { baseState with shots := [shotL] } 0).shots = [shotL] ∧
    shotL.x + shotL.width < 0 := by
  constructor
  · norm_num [shotAdvancePhase, moveShot, baseState, shotL, WIDTH, HEIGHT]
  · norm_num [shotL]

/-- C7 amended: every shot advances by its velocity × elapsed time
(independently in X and Y), and the pruned collection holds exactly the moved
shots with `x < WIDTH + width`, `-height < y` and `y < HEIGHT + height` — i.e.
removal happens only past the right margin or beyond the vertical margins;
shots that exited on the left are retained; the kept shots stay in order. -/
theorem C7_shot_advance (state : GameState) (dt : ℚ) :
    (∀ s2 : Shot, s2 ∈ (shotAdvancePhase state dt).shots ↔
      ((∃ s ∈ state.shots, s2 = moveShot dt s) ∧
        ¬(WIDTH + s2.width ≤ s2.x ∨ s2.y ≤ -s2.height ∨ HEIGHT + s2.height ≤ s2.y))) ∧
    (shotAdvancePhase state dt).shots.Sublist (state.shots.map (moveShot dt)) ∧
    (∀ s : Shot, (moveShot dt s).x = s.x + s.velocityX * dt ∧
      (moveShot dt s).y = s.y + s.velocityY * dt) := by
  have hpred : ∀ s : Shot,
      (decide (s.x < WIDTH + s.width) && decide (s.y > -s.height) &&
        decide (s.y < HEIGHT + s.height)) = true ↔
      ¬(WIDTH + s.width ≤ s.x ∨ s.y ≤ -s.height ∨ HEIGHT + s.height ≤ s.y) := by
    intro s
    simp only [Bool.and_eq_true, decide_eq_true_eq, not_or, not_le, gt_iff_lt]
    tauto
  refine ⟨?_, List.filter_sublist _, fun s => ⟨rfl, rfl⟩⟩
  intro s2
  simp only [shotAdvancePhase]
  rw [List.mem_filter, List.mem_map, hpred s2]
  constructor
  · rintro ⟨⟨s, hs, hq⟩, hp⟩
    exact ⟨⟨s, hs, hq.symm⟩, hp⟩
  · rintro ⟨⟨s, hs, hq⟩, hp⟩
    exact ⟨⟨s, hs, hq.symm⟩, hp⟩

lemma hitScan_none (shot : Shot) :
    ∀ enemies : List Enemy,
      (∀ e ∈ enemies, e.hp ≤ 0 ∨ ¬ rectsIntersect shot.toRect e.toRect) →
      hitScan shot enemies = none := by
  intro enemies
  induction enemies with
  | nil => intro _; rfl
  | cons e rest ih =>
    intro h
    have hrest := fun e' h' => h e' (List.mem_cons_of_mem _ h')
    unfold hitScan
    by_cases h0 : e.hp ≤ 0
    · rw [if_pos h0, ih hrest]
    · have hni : ¬ rectsIntersect shot.toRect e.toRect := by
        rcases h e (List.mem_cons_self e rest) with hc | hc
        · exact absurd hc h0
        · exact hc
      rw [if_neg h0, if_neg hni, ih hrest]

lemma hitScan_hit (shot : Shot) (e : Enemy) (post : List Enemy)
    (he : 0 < e.hp) (hint : rectsIntersect shot.toRect e.toRect) :
    ∀ pre : List Enemy,
      (∀ e' ∈ pre, e'.hp ≤ 0 ∨ ¬ rectsIntersect shot.toRect e'.toRect) →
      hitScan shot (pre ++ e :: post) =
        some (pre ++ { e with hp := e.hp - 1 } :: post, { e with hp := e.hp - 1 }) := by
  intro pre
  induction pre with
  | nil =>
    intro _
    simp only [List.nil_append]
    unfold hitScan
    rw [if_neg (not_le.mpr he), if_pos hint]
  | cons p pre ih =>
    intro h
    have hp2 := h p (List.mem_cons_self p pre)
    have hrest := fun e' h' => h e' (List.mem_cons_of_mem _ h')
    rw [List.cons_append]
    unfold hitScan
    by_cases h0 : p.hp ≤ 0
    · rw [if_pos h0, ih hrest]
      simp
    · have hni : ¬ rectsIntersect shot.toRect p.toRect := by
        rcases hp2 with hc | hc
        · exact absurd hc h0
        · exact hc
      rw [if_neg h0, if_neg hni, ih hrest]
      simp

/-- C2: in the shot–obstacle phase a shot damages exactly the first
not-yet-destroyed obstacle it intersects in collection order — that obstacle
loses exactly one hit-point, every obstacle before it (all dead or missed)
and after it is untouched, the shot is consumed, and the obstacle joins the
destroyed list iff its hit-points reached zero; a shot intersecting no live
obstacle survives with the whole list unchanged. -/
theorem C2_shot_collision (shot : Shot) (pre post : List Enemy) (e : Enemy)
    (hpre : ∀ e' ∈ pre, e'.hp ≤ 0 ∨ ¬ rectsIntersect shot.toRect e'.toRect)
    (he : 0 < e.hp) (hint : rectsIntersect shot.toRect e.toRect) :
    shotEnemyScan [shot] (pre ++ e :: post) =
      ([], pre ++ { e with hp := e.hp - 1 } :: post,
       (if e.hp - 1 ≤ 0 then [{ e with hp := e.hp - 1 }] else []), 1) ∧
    ∀ enemies : List Enemy,
      (∀ e' ∈ enemies, e'.hp ≤ 0 ∨ ¬ rectsIntersect shot.toRect e'.toRect) →
      shotEnemyScan [shot] enemies = ([shot], enemies, [], 0) := by
  constructor
  · unfold shotEnemyScan
    rw [hitScan_hit shot e post he hint pre hpre]
    simp [shotEnemyScan]
  · intro enemies h
    unfold shotEnemyScan
    rw [hitScan_none shot enemies h]
    simp [shotEnemyScan]

/-- C2 witness: one shot overlapping two live obstacles damages only the
first one; here the first has 1 hp, so it is destroyed and the second (also
overlapping) is untouched. -/
theorem C2_shot_collision_witness :
    shotEnemyScan [shotA] ([] ++ enemyA :: [enemyB]) =
      ([], [] ++ { enemyA with hp := enemyA.hp - 1 } :: [enemyB],
       (if enemyA.hp - 1 ≤ 0 then [{ enemyA with hp := enemyA.hp - 1 }] else []), 1) :=
  (C2_shot_collision shotA [] [enemyB] enemyA (by simp)
    (by norm_num [enemyA])
    (by norm_num [rectsIntersect, shotA, enemyA])).1

lemma playerScan_hit (player : Player) (e : Enemy) (post : List Enemy)
    (hint : rectsIntersect player.toRect e.toRect) :
    ∀ pre : List Enemy,
      (∀ e' ∈ pre, ¬ rectsIntersect player.toRect e'.toRect) →
      playerScan player (pre ++ e :: post) = (pre ++ post, true) := by
  intro pre
  induction pre with
  | nil =>
    intro _
    simp only [List.nil_append]
    unfold playerScan
    rw [if_pos hint]
  | cons p pre ih =>
    intro h
    rw [List.cons_append]
    unfold playerScan
    rw [if_neg (h p (List.mem_cons_self p pre)),
      ih (fun e' h' => h e' (List.mem_cons_of_mem _ h'))]
    simp

/-- C5: when the invulnerability window has passed and the player touches an
obstacle, the first intersecting obstacle in collection order is removed and
every other obstacle — including later ones also overlapping the player — is
kept; with shield > 0 the shield absorbs the hit (lives unchanged), otherwise
one life is lost; invulnerability restarts at now + 1000 ms and the combo
state resets; while still invulnerable the phase changes nothing. -/
theorem C5_player_collision (state : GameState) (nowMs : ℚ) (pre post : List Enemy)
    (e : Enemy)
    (hnow : nowMs ≥ state.player.invulnerableUntil)
    (hen : state.enemies = pre ++ e :: post)
    (hpre : ∀ e' ∈ pre, ¬ rectsIntersect state.player.toRect e'.toRect)
    (hint : rectsIntersect state.player.toRect e.toRect) :
    (playerHitPhase state nowMs).enemies = pre ++ post ∧
    (playerHitPhase state nowMs).lives =
      (if 0 < state.player.shield then state.lives else state.lives - 1) ∧
    (playerHitPhase state nowMs).player.shield =
      (if 0 < state.player.shield then state.player.shield - 1 else state.player.shield) ∧
    (playerHitPhase state nowMs).player.invulnerableUntil = nowMs + INVULNERABLE_MS ∧
    (playerHitPhase state nowMs).combo = 0 ∧
    (playerHitPhase state nowMs).comboExpiresAt = 0 ∧
    ∀ (s2 : GameState) (t : ℚ),
      t < s2.player.invulnerableUntil → playerHitPhase s2 t = s2 := by
  have hgate : ∀ (s2 : GameState) (t : ℚ),
      t < s2.player.invulnerableUntil → playerHitPhase s2 t = s2 := by
    intro s2 t ht
    unfold playerHitPhase
    rw [if_neg (not_le.mpr ht)]
  have hval : playerHitPhase state nowMs =
      { state with
          enemies := pre ++ post
          lives := if 0 < state.player.shield then state.lives else state.lives - 1
          combo := 0
          comboExpiresAt := 0
          player :=
            if 0 < state.player.shield then
              { state.player with
                  shield := state.player.shield - 1
                  invulnerableUntil := nowMs + INVULNERABLE_MS }
            else
              { state.player with invulnerableUntil := nowMs + INVULNERABLE_MS } } := by
    unfold playerHitPhase
    rw [if_pos hnow, hen, playerScan_hit state.player e post hint pre hpre]
    by_cases hs : 0 < state.player.shield
    · simp [hs]
    · simp [hs]
  refine ⟨?_, ?_, ?_, ?_, ?_, ?_, hgate⟩ <;> rw [hval] <;>
    simp [apply_ite (fun p : Player => p.shield),
      apply_ite (fun p : Player => p.invulnerableUntil)]

/-- C5 witness: shield = 1 absorbs the collision — lives stay at 3, shield
drops to 0, invulnerability runs to the collision time plus 1000 ms. -/
theorem C5_player_collision_witness :
    (playerHitPhase
        { baseState with player := { player0 with shield := 1 }, enemies := [enemyP] }
        0).enemies = [] ∧
    (playerHitPhase
        { baseState with player := { player0 with shield := 1 }, enemies := [enemyP] }
        0).lives = 3 ∧
    (playerHitPhase
        { baseState with player := { player0 with shield := 1 }, enemies := [enemyP] }
        0).player.shield = 0 ∧
    (playerHitPhase
        { baseState with player := { player0 with shield := 1 }, enemies := [enemyP] }
        0).player.invulnerableUntil = 0 + INVULNERABLE_MS := by
  have h := C5_player_collision
    { baseState with player := { player0 with shield := 1 }, enemies := [enemyP] }
    0 [] [] enemyP (by norm_num [baseState, player0]) rfl (by simp)
    (by norm_num [rectsIntersect, baseState, player0, enemyP])
  refine ⟨h.1, ?_, ?_, h.2.2.2.1⟩
  · have := h.2.1
    norm_num [baseState, player0] at this ⊢
    exact this
  · have := h.2.2.1
    norm_num [baseState, player0] at this ⊢
    exact this

lemma applyPowerUp_player_toRect (state : GameState) (nowMs : ℚ) (p : PowerUp) :
    (applyPowerUp state nowMs p).player.toRect = state.player.toRect := by
  obtain ⟨r, sp, k⟩ := p
  cases k <;> rfl

lemma pickupScan_powerUps (nowMs : ℚ) :
    ∀ (l : List PowerUp) (state : GameState),
      (pickupScan nowMs state l).2 =
        l.filter (fun p => !decide (rectsIntersect state.player.toRect p.toRect)) := by
  intro l
  induction l with
  | nil => intro state; rfl
  | cons p rest ih =>
    intro state
    unfold pickupScan
    by_cases h : rectsIntersect state.player.toRect p.toRect
    · rw [if_pos h, ih (applyPowerUp state nowMs p)]
      simp only [applyPowerUp_player_toRect]
      simp [List.filter_cons, h]
    · rw [if_neg h]
      have hres := ih state
      rcases hpair : pickupScan nowMs state rest with ⟨s2, rem⟩
      rw [hpair] at hres
      simp [hpair, hres, List.filter_cons, h]
      simpa using hres

/-- C10: picking up a power-up removes it from the collection; boost, burst
and slow each extend their expiry to `max(current expiry, now) + duration`
(6000, 6000, 5200 ms) touching nothing else, and shield raises the charge to
`min(SHIELD_CAP, shield + 1)` with no timer. -/
theorem C10_powerup_pickup (state : GameState) (nowMs : ℚ) (powerUp : PowerUp)
    (hpu : state.powerUps = [powerUp])
    (hint : rectsIntersect state.player.toRect powerUp.toRect) :
    (pickupPhase state nowMs).powerUps = [] ∧
    (powerUp.kind = PowerUpKind.boost →
      (pickupPhase state nowMs).boostUntil = max state.boostUntil nowMs + BOOST_DURATION_MS ∧
      (pickupPhase state nowMs).burstUntil = state.burstUntil ∧
      (pickupPhase state nowMs).slowUntil = state.slowUntil ∧
      (pickupPhase state nowMs).player.shield = state.player.shield) ∧
    (powerUp.kind = PowerUpKind.burst →
      (pickupPhase state nowMs).burstUntil = max state.burstUntil nowMs + BURST_DURATION_MS ∧
      (pickupPhase state nowMs).boostUntil = state.boostUntil ∧
      (pickupPhase state nowMs).slowUntil = state.slowUntil ∧
      (pickupPhase state nowMs).player.shield = state.player.shield) ∧
    (powerUp.kind = PowerUpKind.slow →
      (pickupPhase state nowMs).slowUntil = max state.slowUntil nowMs + SLOW_DURATION_MS ∧
      (pickupPhase state nowMs).boostUntil = state.boostUntil ∧
      (pickupPhase state nowMs).burstUntil = state.burstUntil ∧
      (pickupPhase state nowMs).player.shield = state.player.shield) ∧
    (powerUp.kind = PowerUpKind.shield →
      (pickupPhase state nowMs).player.shield = min SHIELD_CAP (state.player.shield + 1) ∧
      (pickupPhase state nowMs).boostUntil = state.boostUntil ∧
      (pickupPhase state nowMs).burstUntil = state.burstUntil ∧
      (pickupPhase state nowMs).slowUntil = state.slowUntil) := by
  have hstep : pickupPhase state nowMs =
      { applyPowerUp state nowMs powerUp with powerUps := [] } := by
    unfold pickupPhase
    rw [hpu]
    unfold pickupScan
    rw [if_pos hint]
    rfl
  refine ⟨by rw [hstep], ?_, ?_, ?_, ?_⟩ <;> intro hk <;>
    simp [hstep, applyPowerUp, hk]

/-- C10 witness: a boost orb picked up at t = 1000 with the boost buff still
running to t = 5000 extends the expiry to max(5000, 1000) + 6000. -/
theorem C10_powerup_pickup_witness :
    (pickupPhase
        { baseState with powerUps := [powerUp0 PowerUpKind.boost], boostUntil := 5000 }
        1000).powerUps = [] ∧
    (pickupPhase
        { baseState with powerUps := [powerUp0 PowerUpKind.boost], boostUntil := 5000 }
        1000).boostUntil = max 5000 1000 + BOOST_DURATION_MS := by
  have h := C10_powerup_pickup
    { baseState with powerUps := [powerUp0 PowerUpKind.boost], boostUntil := 5000 }
    1000 (powerUp0 PowerUpKind.boost) rfl
    (by norm_num [rectsIntersect, baseState, player0, powerUp0])
  exact ⟨h.1, (h.2.1 rfl).1⟩

/-- C8: resolving the destruction of a 40×40 splitter at (400, 300) appends
exactly two shards — scale factor 0.65 of the base sprite (reduced size),
1 hit-point each, speed 1.2× the parent's — positioned at the parent's
location offset vertically by ∓14, which is exactly y = 286 and y = 314 when
the shard height is 40 (clamping does not engage there); the splitter itself
adds exactly 1 to the score, and the shards add nothing this step. -/
theorem C8_splitter_shards (env : Env) (assets : Assets) (state : GameState)
    (nowMs v : ℚ) (hA : assets.enemyH * 0.65 = 40) :
    (destructionPhase env assets nowMs [splitterAt v] state).score = state.score + 1 ∧
    (destructionPhase env assets nowMs [splitterAt v] state).enemies =
      state.enemies ++
        [{ x := 412, y := 286, width := assets.enemyW * 0.65, height := 40,
           speed := v * 1.2, kind := EnemyKind.shard, hp := 1, baseY := 286,
           waveAmplitude := 0, waveFrequency := 0, wavePhase := 0, sizeScale := 0.65 },
         { x := 412, y := 314, width := assets.enemyW * 0.65, height := 40,
           speed := v * 1.2, kind := EnemyKind.shard, hp := 1, baseY := 314,
           waveAmplitude := 0, waveFrequency := 0, wavePhase := 0, sizeScale := 0.65 }] := by
  have h1 : createShard assets (splitterAt v) (-14) =
      { x := 412, y := 286, width := assets.enemyW * 0.65, height := 40,
        speed := v * 1.2, kind := EnemyKind.shard, hp := 1, baseY := 286,
        waveAmplitude := 0, waveFrequency := 0, wavePhase := 0, sizeScale := 0.65 } := by
    unfold createShard splitterAt
    dsimp only
    rw [hA]
    norm_num [clamp, HEIGHT]
  have h2 : createShard assets (splitterAt v) 14 =
      { x := 412, y := 314, width := assets.enemyW * 0.65, height := 40,
        speed := v * 1.2, kind := EnemyKind.shard, hp := 1, baseY := 314,
        waveAmplitude := 0, waveFrequency := 0, wavePhase := 0, sizeScale := 0.65 } := by
    unfold createShard splitterAt
    dsimp only
    rw [hA]
    norm_num [clamp, HEIGHT]
  have hstep : destructionPhase env assets nowMs [splitterAt v] state =
      destructionStep env assets nowMs 0 state (splitterAt v) := rfl
  rw [hstep]
  unfold destructionStep
  dsimp only
  rw [if_pos (show (splitterAt v).kind = EnemyKind.splitter from rfl)]
  constructor
  · split_ifs <;> rfl
  · split_ifs <;> rw [h1, h2]

/-- C8 witness: the shard theorem instantiated with a base sprite height of
800/13, which makes the shard height exactly 40. -/
theorem C8_splitter_shards_witness :
    (destructionPhase env0 assets0 0 [splitterAt 200] baseState).score =
      baseState.score + 1 ∧
    (destructionPhase env0 assets0 0 [splitterAt 200] baseState).enemies =
      baseState.enemies ++
        [{ x := 412, y := 286, width := assets0.enemyW * 0.65, height := 40,
           speed := 200 * 1.2, kind := EnemyKind.shard, hp := 1, baseY := 286,
           waveAmplitude := 0, waveFrequency := 0, wavePhase := 0, sizeScale := 0.65 },
         { x := 412, y := 314, width := assets0.enemyW * 0.65, height := 40,
           speed := 200 * 1.2, kind := EnemyKind.shard, hp := 1, baseY := 314,
           waveAmplitude := 0, waveFrequency := 0, wavePhase := 0, sizeScale := 0.65 }] :=
  C8_splitter_shards env0 assets0 baseState 0 200 (by norm_num [assets0])

lemma firePhase_score (assets : Assets) (controls : Controls) (b : Bool)
    (state : GameState) (nowMs : ℚ) :
    (firePhase assets controls b state nowMs).score = state.score := by
  unfold firePhase
  dsimp only
  split_ifs <;> rfl

lemma afterFiring_score (env : Env) (assets : Assets) (controls : Controls)
    (state : GameState) (dt nowMs : ℚ) :
    (afterFiring env assets controls state dt nowMs).score = state.score := by
  unfold afterFiring
  rw [firePhase_score]

lemma spawnPhase_score (env : Env) (assets : Assets) (state : GameState) (nowMs : ℚ) :
    (spawnPhase env assets state nowMs).score = state.score := by
  unfold spawnPhase
  split_ifs <;> rfl

lemma escapePhase_score (state : GameState) :
    (escapePhase state).score = state.score := by
  unfold escapePhase
  rcases h : escapeScan state.enemies with ⟨kept, n⟩
  simp only [h]
  split_ifs <;> rfl

lemma collisionPhase_score (state : GameState) :
    (collisionPhase state).1.score = state.score := by
  unfold collisionPhase
  rcases h : shotEnemyScan state.shots state.enemies with ⟨a, b, c, d⟩
  simp only [h]

lemma stepPhases1to8_score (env : Env) (assets : Assets) (controls : Controls)
    (state : GameState) (dt nowMs : ℚ) :
    (stepPhases1to8 env assets controls state dt nowMs).1.score = state.score := by
  unfold stepPhases1to8
  dsimp only
  rw [collisionPhase_score]
  show (powerUpAdvancePhase _ _).score = _
  unfold powerUpAdvancePhase
  dsimp only
  rw [escapePhase_score]
  show (enemyAdvancePhase _ _ _ _ _).score = _
  unfold enemyAdvancePhase
  dsimp only
  rw [spawnPhase_score]
  show (shotAdvancePhase _ _).score = _
  unfold shotAdvancePhase
  dsimp only
  rw [afterFiring_score]

lemma destructionStep_score (env : Env) (assets : Assets) (nowMs : ℚ) (idx : ℕ)
    (state : GameState) (enemy : Enemy) :
    (destructionStep env assets nowMs idx state enemy).score = state.score + 1 := by
  unfold destructionStep
  dsimp only
  split_ifs <;> rfl

lemma destructionGo_score (env : Env) (assets : Assets) (nowMs : ℚ) :
    ∀ (l : List Enemy) (idx : ℕ) (state : GameState),
      (destructionGo env assets nowMs idx state l).score = state.score + l.length := by
  intro l
  induction l with
  | nil => intro idx state; simp [destructionGo]
  | cons e rest ih =>
    intro idx state
    unfold destructionGo
    rw [ih, destructionStep_score]
    simp only [List.length_cons]
    omega

lemma upgradeGo_score :
    ∀ (fuel : ℕ) (state : GameState), (upgradeGo fuel state).score = state.score := by
  intro fuel
  induction fuel with
  | zero => intro state; rfl
  | succ n ih =>
    intro state
    unfold upgradeGo
    split_ifs <;> first | rw [ih] | rfl

lemma playerHitPhase_score (state : GameState) (nowMs : ℚ) :
    (playerHitPhase state nowMs).score = state.score := by
  unfold playerHitPhase
  rcases h : playerScan state.player state.enemies with ⟨surv, col⟩
  simp only [h]
  split_ifs <;> rfl

lemma applyPowerUp_score (state : GameState) (nowMs : ℚ) (p : PowerUp) :
    (applyPowerUp state nowMs p).score = state.score := by
  obtain ⟨r, sp, k⟩ := p
  cases k <;> rfl

lemma pickupScan_score (nowMs : ℚ) :
    ∀ (l : List PowerUp) (state : GameState),
      (pickupScan nowMs state l).1.score = state.score := by
  intro l
  induction l with
  | nil => intro state; rfl
  | cons p rest ih =>
    intro state
    unfold pickupScan
    by_cases h : rectsIntersect state.player.toRect p.toRect
    · rw [if_pos h, ih, applyPowerUp_score]
    · rw [if_neg h]
      rcases hpair : pickupScan nowMs state rest with ⟨s2, rem⟩
      have hs := ih state
      rw [hpair] at hs
      simpa [hpair] using hs

lemma pickupPhase_score (state : GameState) (nowMs : ℚ) :
    (pickupPhase state nowMs).score = state.score := by
  unfold pickupPhase
  rcases hpair : pickupScan nowMs state state.powerUps with ⟨s2, rem⟩
  have hs := pickupScan_score nowMs state.powerUps state
  rw [hpair] at hs
  simpa [hpair] using hs

lemma comboExpiryPhase_score (state : GameState) (nowMs : ℚ) :
    (comboExpiryPhase state nowMs).score = state.score := by
  unfold comboExpiryPhase
  split_ifs <;> rfl

/-- C3: over a full step the score grows by exactly the number of obstacles
destroyed that step (one point per destroyed obstacle, resolved in phase 9;
no other phase writes the score), and is therefore non-decreasing across
steps. -/
theorem C3_score_accounting (env : Env) (assets : Assets) (controls : Controls)
    (state : GameState) (dt nowMs : ℚ) :
    (updateGame env assets controls state dt nowMs).score =
      state.score + (stepPhases1to8 env assets controls state dt nowMs).2.length ∧
    state.score ≤ (updateGame env assets controls state dt nowMs).score := by
  have key : (updateGame env assets controls state dt nowMs).score =
      state.score + (stepPhases1to8 env assets controls state dt nowMs).2.length := by
    unfold updateGame
    rcases h8 : stepPhases1to8 env assets controls state dt nowMs with ⟨s8, destroyed⟩
    have hs8 : s8.score = state.score := by
      have := stepPhases1to8_score env assets controls state dt nowMs
      rw [h8] at this
      exact this
    simp only [h8]
    rw [comboExpiryPhase_score, pickupPhase_score, playerHitPhase_score]
    show (upgradePhase _).score = _
    unfold upgradePhase
    rw [upgradeGo_score]
    show (destructionPhase _ _ _ _ _).score = _
    unfold destructionPhase
    rw [destructionGo_score, hs8]
  exact ⟨key, key ▸ Nat.le_add_right _ _⟩

end GalacticToast
